import Mathlib

/-!
Shallow embedding of the cloudypad state model, state migration engine,
state store and lifecycle orchestrator (src/core/state.ts, src/core/manager.ts
and provider state declarations).

Modelling conventions:
- TypeScript optional / possibly-undefined fields become `Option`.
- JavaScript truthiness on strings (`if(!s)`) is `strTruthy`: an absent
  field and the empty string are both falsy.
- Thrown exceptions become `Except CpError` or an explicit `error` field;
  exception propagation is explicit sequencing.
- The filesystem store (one directory per instance, one config.yml each)
  is an association list from instance name to the stored raw document;
  a yaml dump/load round trip of plain data is the identity, so writing
  a document stores it verbatim.
-/

namespace CloudyPad

/-- Provider discriminant constants, from src/core/const.ts and the provider
state modules (aws, azure, gcp, paperspace). -/
def CLOUDYPAD_PROVIDER_AWS : String := "aws"

def CLOUDYPAD_PROVIDER_AZURE : String := "azure"

def CLOUDYPAD_PROVIDER_GCP : String := "gcp"

def CLOUDYPAD_PROVIDER_PAPERSPACE : String := "paperspace"

/-- JavaScript truthiness of a possibly-absent string field:
`undefined` and the empty string are falsy, any other string is truthy. -/
def strTruthy : Option String → Bool
  | none => false
  | some s => !(s == "")

/-- JavaScript nullish coalescing `a ?? b` on possibly-absent strings:
keeps `a` whenever it is present, even when it is the empty string. -/
def nullishOr (a b : Option String) : Option String :=
  match a with
  | some v => some v
  | none => b

/-- Legacy V0 `ssh` sub-object: `ssh.{user, privateKeyPath}`, both optional. -/
structure SshV0 where
  user : Option String
  privateKeyPath : Option String
deriving Repr, DecidableEq

/-- Opaque model of a provider-specific `provisionArgs.create` record
(machine size, disk size, region, ...): a field map. The migration spreads
it verbatim into the V1 config. -/
structure CreateArgs where
  fields : List (String × String)
deriving Repr, DecidableEq

/-- Legacy V0 `provisionArgs` sub-object. `create` holds the creation
arguments; `apiKey` is only ever populated for paperspace. -/
structure ArgsV0 where
  create : Option CreateArgs
  apiKey : Option String
deriving Repr, DecidableEq

/-- Legacy V0 aws provider sub-object (AwsProviderStateV0). -/
structure AwsV0 where
  instanceId : Option String
  provisionArgs : Option ArgsV0
deriving Repr, DecidableEq

/-- Legacy V0 azure provider sub-object (AzureProviderStateV0). -/
structure AzureV0 where
  vmName : Option String
  resourceGroupName : Option String
  provisionArgs : Option ArgsV0
deriving Repr, DecidableEq

/-- Legacy V0 gcp provider sub-object (GcpProviderStateV0). -/
structure GcpV0 where
  instanceName : Option String
  provisionArgs : Option ArgsV0
deriving Repr, DecidableEq

/-- Legacy V0 paperspace provider sub-object (PaperspaceProviderStateV0). -/
structure PaperspaceV0 where
  machineId : Option String
  apiKey : Option String
  provisionArgs : Option ArgsV0
deriving Repr, DecidableEq

/-- Legacy V0 `provider` record: at most one provider sub-object populated
(this is documented intent; nothing in the data enforces it). -/
structure ProviderV0 where
  aws : Option AwsV0
  azure : Option AzureV0
  gcp : Option GcpV0
  paperspace : Option PaperspaceV0
deriving Repr, DecidableEq

/-- Legacy V0 `status.provision` record. Never read by the migration. -/
structure ProvisionStatusV0 where
  provisioned : Bool
  lastUpdate : Option Nat
deriving Repr, DecidableEq

/-- Legacy V0 `status.configuration` record. Never read by the migration. -/
structure ConfigurationStatusV0 where
  configured : Bool
  lastUpdate : Option Nat
deriving Repr, DecidableEq

/-- Legacy V0 `status` record (field `initalized` spelled as in the source).
Never read by the migration. -/
structure StatusV0 where
  initalized : Bool
  provision : ProvisionStatusV0
  configuration : ConfigurationStatusV0
deriving Repr, DecidableEq

/-- V1 ssh config (CommonProvisionConfigV1.ssh): both fields required. -/
structure SshConfigV1 where
  user : String
  privateKeyPath : String
deriving Repr, DecidableEq

/-- V1 provision config: the spread provider-specific creation arguments,
an optional apiKey (paperspace only) and the required ssh block. -/
structure ConfigV1 where
  createArgs : CreateArgs
  apiKey : Option String
  ssh : SshConfigV1
deriving Repr, DecidableEq

/-- V1 provision output (CommonProvisionOutputV1 plus the provider-specific
fields): `host` is common; exactly the fields of the given provider are
populated (aws: instanceId; azure: vmName and resourceGroupName;
gcp: instanceName; paperspace: machineId). -/
structure OutputV1 where
  host : String
  instanceId : Option String
  vmName : Option String
  resourceGroupName : Option String
  instanceName : Option String
  machineId : Option String
deriving Repr, DecidableEq

/-- Raw V1 `provision` record as found in a raw document. The current code
never validates its contents on load (TODO ZOD in the source), so raw
documents may have any of these absent. -/
structure RawProvisionV1 where
  provider : Option String
  output : Option OutputV1
  config : Option ConfigV1
deriving Repr, DecidableEq

/-- A raw persisted document, as loaded by yaml from config.yml, before
`ensureStateV1` runs. It can carry V0 fields (`provider`, `host`, `ssh`,
`status`), V1 fields (`version`, `provision`), both, or neither. -/
structure RawDoc where
  version : Option String
  name : Option String
  provider : Option ProviderV0
  host : Option String
  ssh : Option SshV0
  status : Option StatusV0
  provision : Option RawProvisionV1
deriving Repr, DecidableEq

/-- Error taxonomy. Thrown `Error`s of the source are mapped to the
constructor matching the throw site; `migrationMissingField` carries a tag
naming the missing field the message identifies. -/
inductive CpError where
  /-- Throw site: version present but not "1"
  (message literal: Unknown state version). -/
  | unsupportedVersion
  /-- Throw sites: Missing host / Missing SSh config / Missing X provision
  args / Missing X instance ID, VM name, Resource Group, instance name,
  machine ID, api key. The tag names the offending field. -/
  | migrationMissingField (field : String)
  /-- Throw site: Unknwon provider in state (sic, message as in source). -/
  | unknownProvider
  /-- Throw site: instance does not exist, in loadInstanceState. -/
  | instanceNotFound (name : String)
  /-- Throw sites in AbstractSubManagerFactory.buildRunner and
  buildConfigurator when provision output is absent. The tag says which
  build check fired. -/
  | notProvisioned (what : String)
  /-- A failure raised by a Provisioner collaborator. -/
  | provisionerError (msg : String)
  /-- A failure raised by a Configurator collaborator. -/
  | configuratorError (msg : String)
  /-- A failure raised by a Runner collaborator. -/
  | runnerError (msg : String)
deriving Repr, DecidableEq

/-- Builds the raw V1 document produced by the V0 transform: only `version`,
`name` and `provision` are set, exactly as the object literals in
ensureStateV1 construct it. -/
def rawV1 (name : Option String) (provider : String) (out : OutputV1)
    (cfg : ConfigV1) : RawDoc :=
  { version := some "1"
    name := name
    provider := none
    host := none
    ssh := none
    status := none
    provision := some { provider := some provider, output := some out, config := some cfg } }

/-- The aws arm of the V0 transform: checks provisionArgs.create and
instanceId, then builds the V1 document with output `{host, instanceId}`
and config `{...create, ssh}`. -/
def migrateAws (name : Option String) (host user keyPath : String)
    (aws : AwsV0) : Except CpError RawDoc :=
  match aws.provisionArgs with
  | none => .error (.migrationMissingField "aws.provisionArgs")
  | some args =>
    match args.create with
    | none => .error (.migrationMissingField "aws.provisionArgs")
    | some create =>
      if !strTruthy aws.instanceId then
        .error (.migrationMissingField "aws.instanceId")
      else
        .ok (rawV1 name CLOUDYPAD_PROVIDER_AWS
          { host := host, instanceId := aws.instanceId, vmName := none
            resourceGroupName := none, instanceName := none, machineId := none }
          { createArgs := create, apiKey := none
            ssh := { user := user, privateKeyPath := keyPath } })

/-- The azure arm of the V0 transform: checks provisionArgs.create, vmName
and resourceGroupName, then builds the V1 document with output
`{host, resourceGroupName, vmName}` and config `{...create, ssh}`. -/
def migrateAzure (name : Option String) (host user keyPath : String)
    (az : AzureV0) : Except CpError RawDoc :=
  match az.provisionArgs with
  | none => .error (.migrationMissingField "azure.provisionArgs")
  | some args =>
    match args.create with
    | none => .error (.migrationMissingField "azure.provisionArgs")
    | some create =>
      if !strTruthy az.vmName then
        .error (.migrationMissingField "azure.vmName")
      else if !strTruthy az.resourceGroupName then
        .error (.migrationMissingField "azure.resourceGroupName")
      else
        .ok (rawV1 name CLOUDYPAD_PROVIDER_AZURE
          { host := host, instanceId := none, vmName := az.vmName
            resourceGroupName := az.resourceGroupName, instanceName := none, machineId := none }
          { createArgs := create, apiKey := none
            ssh := { user := user, privateKeyPath := keyPath } })

/-- The gcp arm of the V0 transform: checks provisionArgs.create and
instanceName, then builds the V1 document with output
`{host, instanceName}` and config `{...create, ssh}`. -/
def migrateGcp (name : Option String) (host user keyPath : String)
    (gcp : GcpV0) : Except CpError RawDoc :=
  match gcp.provisionArgs with
  | none => .error (.migrationMissingField "gcp.provisionArgs")
  | some args =>
    match args.create with
    | none => .error (.migrationMissingField "gcp.provisionArgs")
    | some create =>
      if !strTruthy gcp.instanceName then
        .error (.migrationMissingField "gcp.instanceName")
      else
        .ok (rawV1 name CLOUDYPAD_PROVIDER_GCP
          { host := host, instanceId := none, vmName := none
            resourceGroupName := none, instanceName := gcp.instanceName, machineId := none }
          { createArgs := create, apiKey := none
            ssh := { user := user, privateKeyPath := keyPath } })

/-- The paperspace arm of the V0 transform: checks provisionArgs.create and
machineId, requires a truthy apiKey on the provider object or inside
provisionArgs, then builds the V1 document with output `{host, machineId}`
and config `{...create, apiKey ?? provisionArgs.apiKey, ssh}`. -/
def migratePaperspace (name : Option String) (host user keyPath : String)
    (ps : PaperspaceV0) : Except CpError RawDoc :=
  match ps.provisionArgs with
  | none => .error (.migrationMissingField "paperspace.provisionArgs")
  | some args =>
    match args.create with
    | none => .error (.migrationMissingField "paperspace.provisionArgs")
    | some create =>
      if !strTruthy ps.machineId then
        .error (.migrationMissingField "paperspace.machineId")
      else if !strTruthy ps.apiKey && !strTruthy args.apiKey then
        .error (.migrationMissingField "paperspace.apiKey")
      else
        .ok (rawV1 name CLOUDYPAD_PROVIDER_PAPERSPACE
          { host := host, instanceId := none, vmName := none
            resourceGroupName := none, instanceName := none, machineId := ps.machineId }
          { createArgs := create, apiKey := nullishOr ps.apiKey args.apiKey
            ssh := { user := user, privateKeyPath := keyPath } })

/-- The provider sub-object accessor `providerV0?.aws`. -/
def povAws : Option ProviderV0 → Option AwsV0
  | none => none
  | some p => p.aws

/-- The provider sub-object accessor `providerV0?.azure`. -/
def povAzure : Option ProviderV0 → Option AzureV0
  | none => none
  | some p => p.azure

/-- The provider sub-object accessor `providerV0?.gcp`. -/
def povGcp : Option ProviderV0 → Option GcpV0
  | none => none
  | some p => p.gcp

/-- The provider sub-object accessor `providerV0?.paperspace`. -/
def povPaperspace : Option ProviderV0 → Option PaperspaceV0
  | none => none
  | some p => p.paperspace

/-- The provider dispatch chain of the V0 transform, in source order:
aws, then azure, then gcp, then paperspace, else unknown provider. -/
def migrateV0Provider (d : RawDoc) (host user keyPath : String) :
    Except CpError RawDoc :=
  match povAws d.provider with
  | some aws => migrateAws d.name host user keyPath aws
  | none =>
    match povAzure d.provider with
    | some az => migrateAzure d.name host user keyPath az
    | none =>
      match povGcp d.provider with
      | some gcp => migrateGcp d.name host user keyPath gcp
      | none =>
        match povPaperspace d.provider with
        | some ps => migratePaperspace d.name host user keyPath ps
        | none => .error .unknownProvider

/-- ensureStateV1 from src/core/state.ts: the migration engine.
A truthy version must equal "1" and the document is then returned with no
further validation (TODO ZOD in the source). A falsy version selects the
V0 path: host check, ssh check, then provider dispatch. -/
def ensureStateV1 (rawState : RawDoc) : Except CpError RawDoc :=
  if strTruthy rawState.version then
    if rawState.version ≠ some "1" then
      .error .unsupportedVersion
    else
      .ok rawState
  else
    if !strTruthy rawState.host then
      .error (.migrationMissingField "host")
    else
      match rawState.ssh with
      | none => .error (.migrationMissingField "ssh")
      | some ssh =>
        if !strTruthy ssh.user || !strTruthy ssh.privateKeyPath then
          .error (.migrationMissingField "ssh")
        else
          migrateV0Provider rawState (rawState.host.getD "")
            (ssh.user.getD "") (ssh.privateKeyPath.getD "")

/-- Typed current-version instance state (InstanceStateV1). The TypeScript
type pins `version` to the literal "1", so the discriminant is implicit
here and re-emitted by `serialize`. -/
structure ProvisionV1 where
  provider : String
  output : Option OutputV1
  config : ConfigV1
deriving Repr, DecidableEq

/-- Typed current-version instance state (InstanceStateV1): a unique name
and the provision record. -/
structure InstanceStateV1 where
  name : String
  provision : ProvisionV1
deriving Repr, DecidableEq

/-- yaml.dump of a typed V1 state: the raw document it persists as.
Plain-data yaml dump then load is the identity, so this is also what a
later load reads back. -/
def serialize (s : InstanceStateV1) : RawDoc :=
  { version := some "1"
    name := some s.name
    provider := none
    host := none
    ssh := none
    status := none
    provision := some { provider := some s.provision.provider
                        output := s.provision.output
                        config := some s.provision.config } }

/-- On-disk store model: the `instances` directory as an association list,
one entry per instance directory holding its config.yml document. A new
write shadows older entries (full overwrite); removal drops every entry
for the name. -/
def Store := List (String × RawDoc)

/-- Existence and content lookup of an instance directory config.yml. -/
def storeLookup : List (String × RawDoc) → String → Option RawDoc
  | [], _ => none
  | (n, doc) :: rest, name => if n = name then some doc else storeLookup rest name

/-- StateManager.persistState: ensure the directory exists, then fully
overwrite config.yml with the serialized current-version state. -/
def persistState (store : List (String × RawDoc)) (s : InstanceStateV1) :
    List (String × RawDoc) :=
  (s.name, serialize s) :: store

/-- StateManager.removeInstanceDir: recursively delete the instance
directory (force, so a missing directory is not an error). -/
def removeInstanceDir (store : List (String × RawDoc)) (instanceName : String) :
    List (String × RawDoc) :=
  store.filter (fun e => e.1 != instanceName)

/-- StateManager.loadInstanceState: fail when the instance directory does
not exist, otherwise read config.yml and run it through ensureStateV1. -/
def loadInstanceState (store : List (String × RawDoc)) (instanceName : String) :
    Except CpError RawDoc :=
  match storeLookup store instanceName with
  | none => .error (.instanceNotFound instanceName)
  | some raw => ensureStateV1 raw

/-- The external collaborators an InstanceManager run consults, as oracles:
the outcome each capability call would produce, plus the answer the
interactive confirm prompt would return. -/
structure Collaborators where
  provisionResult : Except CpError OutputV1
  destroyResult : Except CpError Unit
  configureResult : Except CpError Unit
  startResult : Except CpError Unit
  stopResult : Except CpError Unit
  restartResult : Except CpError Unit
  pairResult : Except CpError Unit
  confirmPair : Bool
deriving Repr

/-- Outcome of one InstanceManager operation: the error that escaped (if
any), the in-memory `this.state` after the call, and the on-disk store.
A thrown error leaves `state` and `store` exactly as they were at the
throw point. -/
structure OpResult where
  error : Option CpError
  state : InstanceStateV1
  store : List (String × RawDoc)
deriving Repr

/-- `this.state.provision.output = output` -/
def withOutput (s : InstanceStateV1) (out : OutputV1) : InstanceStateV1 :=
  { s with provision := { s.provision with output := some out } }

/-- `this.state.provision.output = undefined` -/
def clearOutput (s : InstanceStateV1) : InstanceStateV1 :=
  { s with provision := { s.provision with output := none } }

/-- InstanceManager.provision: build the Provisioner (always succeeds),
invoke it, assign the returned output into the state, persist. A throw
from the provisioner escapes before any assignment or persistence. -/
def provisionOp (env : Collaborators) (s : InstanceStateV1)
    (store : List (String × RawDoc)) : OpResult :=
  match env.provisionResult with
  | .error e => { error := some e, state := s, store := store }
  | .ok out =>
    let s2 := withOutput s out
    { error := none, state := s2, store := persistState store s2 }

/-- InstanceManager.configure: build the Configurator — the factory build
check throws when provision output is absent — invoke it, persist. -/
def configureOp (env : Collaborators) (s : InstanceStateV1)
    (store : List (String × RawDoc)) : OpResult :=
  match s.provision.output with
  | none => { error := some (.notProvisioned "configurator"), state := s, store := store }
  | some _ =>
    match env.configureResult with
    | .error e => { error := some e, state := s, store := store }
    | .ok _ => { error := none, state := s, store := persistState store s }

/-- The shared shape of InstanceManager.start/stop/restart/pair: build the
Runner — the factory build check throws when provision output is absent —
invoke the one capability, persist. -/
def runnerOp (cap : Except CpError Unit) (s : InstanceStateV1)
    (store : List (String × RawDoc)) : OpResult :=
  match s.provision.output with
  | none => { error := some (.notProvisioned "runner"), state := s, store := store }
  | some _ =>
    match cap with
    | .error e => { error := some e, state := s, store := store }
    | .ok _ => { error := none, state := s, store := persistState store s }

/-- InstanceManager.start -/
def startOp (env : Collaborators) (s : InstanceStateV1)
    (store : List (String × RawDoc)) : OpResult :=
  runnerOp env.startResult s store

/-- InstanceManager.stop -/
def stopOp (env : Collaborators) (s : InstanceStateV1)
    (store : List (String × RawDoc)) : OpResult :=
  runnerOp env.stopResult s store

/-- InstanceManager.restart -/
def restartOp (env : Collaborators) (s : InstanceStateV1)
    (store : List (String × RawDoc)) : OpResult :=
  runnerOp env.restartResult s store

/-- InstanceManager.pair -/
def pairOp (env : Collaborators) (s : InstanceStateV1)
    (store : List (String × RawDoc)) : OpResult :=
  runnerOp env.pairResult s store

/-- InstanceManager.destroy: invoke the Provisioner destroy capability,
clear provision output, persist the cleared state, then remove the
instance directory — in that order. -/
def destroyOp (env : Collaborators) (s : InstanceStateV1)
    (store : List (String × RawDoc)) : OpResult :=
  match env.destroyResult with
  | .error e => { error := some e, state := s, store := store }
  | .ok _ =>
    let s2 := clearOutput s
    let store2 := persistState store s2
    let store3 := removeInstanceDir store2 s.name
    { error := none, state := s2, store := store3 }

/-- InstanceManager.initialize: provision, then configure, then decide
pairing via `opts?.autoApprove ? true : await confirm(...)` — a truthy
autoApprove answers yes without prompting, otherwise the interactive
confirm decides — and pair when the answer is yes. Any throw aborts the
remainder of the sequence. -/
def initOp (env : Collaborators) (autoApprove : Option Bool)
    (s : InstanceStateV1) (store : List (String × RawDoc)) : OpResult :=
  let r1 := provisionOp env s store
  match r1.error with
  | some _ => r1
  | none =>
    let r2 := configureOp env r1.state r1.store
    match r2.error with
    | some _ => r2
    | none =>
      let doPair := match autoApprove with
        | some true => true
        | _ => env.confirmPair
      if doPair then
        pairOp env r2.state r2.store
      else
        r2

/-! Helper lemmas shared by several claim theorems. -/

/-- A freshly persisted document is what a lookup of the same name finds. -/
theorem storeLookup_persistState (store : List (String × RawDoc)) (s : InstanceStateV1) :
    storeLookup (persistState store s) s.name = some (serialize s) := by
  simp [persistState, storeLookup]

/-- After removing an instance directory, no document for that name remains. -/
theorem storeLookup_removeInstanceDir (store : List (String × RawDoc)) (n : String) :
    storeLookup (removeInstanceDir store n) n = none := by
  induction store with
  | nil => rfl
  | cons e rest ih =>
    by_cases h : e.1 = n
    · simpa [removeInstanceDir, List.filter_cons, h] using ih
    · simpa [removeInstanceDir, List.filter_cons, h, storeLookup] using ih

/-- A serialized current-version state passes the migration untouched. -/
theorem ensureStateV1_serialize (s : InstanceStateV1) :
    ensureStateV1 (serialize s) = .ok (serialize s) := by
  simp [ensureStateV1, serialize, strTruthy]

/-- Serialization loses no information. -/
theorem serialize_injective {s t : InstanceStateV1} (h : serialize s = serialize t) :
    s = t := by
  cases s with
  | mk ns ps =>
    cases ps with
    | mk prs os cs =>
      cases t with
      | mk nt pt =>
        cases pt with
        | mk prt ot ct =>
          simp [serialize] at h
          obtain ⟨h1, h2, h3, h4⟩ := h
          subst h1; subst h2; subst h3; subst h4
          rfl

/-- Every successful migration yields a document declaring version "1". -/
theorem migrateAws_ok_version (name : Option String) (host user keyPath : String)
    (aws : AwsV0) (r : RawDoc) (h : migrateAws name host user keyPath aws = .ok r) :
    r.version = some "1" := by
  unfold migrateAws at h
  repeat' split at h
  all_goals try cases h
  all_goals rfl

/-- Every successful azure migration yields a document declaring version "1". -/
theorem migrateAzure_ok_version (name : Option String) (host user keyPath : String)
    (az : AzureV0) (r : RawDoc) (h : migrateAzure name host user keyPath az = .ok r) :
    r.version = some "1" := by
  unfold migrateAzure at h
  repeat' split at h
  all_goals try cases h
  all_goals rfl

/-- Every successful gcp migration yields a document declaring version "1". -/
theorem migrateGcp_ok_version (name : Option String) (host user keyPath : String)
    (gcp : GcpV0) (r : RawDoc) (h : migrateGcp name host user keyPath gcp = .ok r) :
    r.version = some "1" := by
  unfold migrateGcp at h
  repeat' split at h
  all_goals try cases h
  all_goals rfl

/-- Every successful paperspace migration yields a document declaring version "1". -/
theorem migratePaperspace_ok_version (name : Option String) (host user keyPath : String)
    (ps : PaperspaceV0) (r : RawDoc) (h : migratePaperspace name host user keyPath ps = .ok r) :
    r.version = some "1" := by
  unfold migratePaperspace at h
  repeat' split at h
  all_goals try cases h
  all_goals rfl

/-- Every successful provider dispatch yields a document declaring version "1". -/
theorem migrateV0Provider_ok_version (d : RawDoc) (host user keyPath : String)
    (r : RawDoc) (h : migrateV0Provider d host user keyPath = .ok r) :
    r.version = some "1" := by
  unfold migrateV0Provider at h
  repeat' split at h
  all_goals first
    | cases h
    | exact migrateAws_ok_version _ _ _ _ _ _ h
    | exact migrateAzure_ok_version _ _ _ _ _ _ h
    | exact migrateGcp_ok_version _ _ _ _ _ _ h
    | exact migratePaperspace_ok_version _ _ _ _ _ _ h

/-- Every document the migration accepts declares version "1" on the way out. -/
theorem ensureStateV1_ok_version (d r : RawDoc) (h : ensureStateV1 d = .ok r) :
    r.version = some "1" := by
  unfold ensureStateV1 at h
  by_cases hv : strTruthy d.version
  · rw [if_pos hv] at h
    by_cases h1 : d.version ≠ some "1"
    · rw [if_pos h1] at h; cases h
    · rw [if_neg h1] at h
      push_neg at h1
      simp only [Except.ok.injEq] at h
      subst h
      exact h1
  · rw [if_neg hv] at h
    repeat' split at h
    all_goals first
      | cases h
      | exact migrateV0Provider_ok_version _ _ _ _ _ h

/-! Concrete sample data for witnesses and counterexamples. -/

/-- A well-formed legacy ssh block. -/
def sshSample : SshV0 := { user := some "ubuntu", privateKeyPath := some "/home/u/key" }

/-- A provider-specific creation-arguments record. -/
def createSample : CreateArgs := { fields := [("instanceType", "g5"), ("diskSize", "100")] }

/-- A fully provisioned legacy aws provider sub-object. -/
def awsSample : AwsV0 :=
  { instanceId := some "i-123", provisionArgs := some { create := some createSample, apiKey := none } }

/-- A fully provisioned legacy azure provider sub-object. -/
def azureSample : AzureV0 :=
  { vmName := some "vm1", resourceGroupName := some "rg1"
    provisionArgs := some { create := some createSample, apiKey := none } }

/-- A valid legacy aws document with exactly one populated provider. -/
def awsV0Doc : RawDoc :=
  { version := none, name := some "legacy1"
    provider := some { aws := some awsSample, azure := none, gcp := none, paperspace := none }
    host := some "1.2.3.4", ssh := some sshSample, status := none, provision := none }

/-- The V1 document the migration produces from `awsV0Doc`. -/
def awsV1Doc : RawDoc :=
  rawV1 (some "legacy1") CLOUDYPAD_PROVIDER_AWS
    { host := "1.2.3.4", instanceId := some "i-123", vmName := none
      resourceGroupName := none, instanceName := none, machineId := none }
    { createArgs := createSample, apiKey := none
      ssh := { user := "ubuntu", privateKeyPath := "/home/u/key" } }

/-- A raw document declaring version "1" with every other field absent:
it satisfies none of the current schema requirements. -/
def badV1Doc : RawDoc :=
  { version := some "1", name := none, provider := none, host := none
    ssh := none, status := none, provision := none }

/-- A typed V1 config used by orchestrator samples. -/
def sampleConfig : ConfigV1 :=
  { createArgs := createSample, apiKey := none
    ssh := { user := "ubuntu", privateKeyPath := "/home/u/key" } }

/-- A provision output as returned by a successful aws provision. -/
def sampleOutput : OutputV1 :=
  { host := "1.2.3.4", instanceId := some "i-1", vmName := none
    resourceGroupName := none, instanceName := none, machineId := none }

/-- An unprovisioned typed V1 state (output absent). -/
def box1 : InstanceStateV1 :=
  { name := "box1", provision := { provider := CLOUDYPAD_PROVIDER_AWS, output := none, config := sampleConfig } }

/-- `box1` after a successful provision. -/
def box1Prov : InstanceStateV1 := withOutput box1 sampleOutput

/-- Collaborators that all succeed; the confirm prompt answers yes. -/
def envAllOk : Collaborators :=
  { provisionResult := .ok sampleOutput, destroyResult := .ok ()
    configureResult := .ok (), startResult := .ok (), stopResult := .ok ()
    restartResult := .ok (), pairResult := .ok (), confirmPair := true }

/-- Collaborators whose provisioner fails. -/
def envProvFail : Collaborators :=
  { envAllOk with provisionResult := .error (.provisionerError "quota") }

/-- Collaborators whose pairing capability fails and whose confirm prompt
would answer no. -/
def envPairFail : Collaborators :=
  { envAllOk with pairResult := .error (.runnerError "pairfail"), confirmPair := false }

/-! Claim theorems. -/

/-- C3: the claim says a document declaring the current version is
validated and rejected with SchemaValidationError when required fields are
missing. The code performs no such validation (TODO ZOD): a version-"1"
document with every required field absent is returned unchanged. This
theorem evaluates the code at that failing input. -/
theorem migrate_v1_skips_validation : ensureStateV1 badV1Doc = .ok badV1Doc := rfl

/-- C9: migration is idempotent: a document already declaring the current
version is returned unchanged (a no-op), and re-running the migration on
any successful result returns it unchanged, so migrate composed with
itself equals migrate wherever it succeeds. Non-mutation of the source
document is inherent to the embedding: `ensureStateV1` is a pure function
producing a value. -/
theorem migrate_idempotent_noop :
    (∀ d : RawDoc, d.version = some "1" → ensureStateV1 d = .ok d)
    ∧ (∀ d r : RawDoc, ensureStateV1 d = .ok r → ensureStateV1 r = .ok r) := by
  have base : ∀ d : RawDoc, d.version = some "1" → ensureStateV1 d = .ok d := by
    intro d hd
    simp [ensureStateV1, hd, strTruthy]
  exact ⟨base, fun d r h => base r (ensureStateV1_ok_version d r h)⟩

/-- Witness for C9 at a concrete input: the result of migrating the sample
legacy aws document is a fixed point of the migration. -/
theorem migrate_idempotent_noop_witness :
    ensureStateV1 awsV1Doc = .ok awsV1Doc :=
  migrate_idempotent_noop.2 awsV0Doc awsV1Doc rfl

/-- C7: persistState followed by loadInstanceState with the same instance
name returns exactly the persisted document, including after an earlier
overwrite of the same instance; and serialization is injective, so the
returned document determines the persisted state. -/
theorem persist_load_roundtrip (store : List (String × RawDoc)) (s t : InstanceStateV1) :
    loadInstanceState (persistState store s) s.name = .ok (serialize s)
    ∧ loadInstanceState (persistState (persistState store t) s) s.name = .ok (serialize s)
    ∧ (serialize s = serialize t → s = t) := by
  refine ⟨?_, ?_, serialize_injective⟩
  · simp [loadInstanceState, storeLookup_persistState, ensureStateV1_serialize]
  · simp [loadInstanceState, storeLookup_persistState, ensureStateV1_serialize]

/-- Witness for C7 at a concrete input. -/
theorem persist_load_roundtrip_witness :
    loadInstanceState (persistState [] box1Prov) box1Prov.name = .ok (serialize box1Prov)
    ∧ box1Prov = box1Prov := by
  have h := persist_load_roundtrip [] box1Prov box1Prov
  exact ⟨h.1, h.2.2 rfl⟩

/-- C4: provision replaces provision.output with the provisioner result
and persists exactly that new state when the provisioner succeeds; when
the provisioner fails, the error propagates and neither the in-memory
state (the prior output in particular) nor the store is touched. -/
theorem provision_replaces_output_or_propagates (env : Collaborators)
    (s : InstanceStateV1) (store : List (String × RawDoc)) :
    (∀ out, env.provisionResult = .ok out →
      provisionOp env s store =
        { error := none, state := withOutput s out
          store := persistState store (withOutput s out) })
    ∧ (∀ e, env.provisionResult = .error e →
      provisionOp env s store = { error := some e, state := s, store := store }) := by
  constructor
  · intro out hout
    simp [provisionOp, hout]
  · intro e he
    simp [provisionOp, he]

/-- Witness for C4 at concrete inputs, one per branch. -/
theorem provision_replaces_output_or_propagates_witness :
    provisionOp envAllOk box1 [] =
      { error := none, state := withOutput box1 sampleOutput
        store := persistState [] (withOutput box1 sampleOutput) }
    ∧ provisionOp envProvFail box1 [] =
      { error := some (.provisionerError "quota"), state := box1, store := [] } :=
  ⟨(provision_replaces_output_or_propagates envAllOk box1 []).1 sampleOutput rfl,
   (provision_replaces_output_or_propagates envProvFail box1 []).2 (.provisionerError "quota") rfl⟩

/-- C5: when the provisioner destroy capability succeeds, destroy clears
provision.output, persists the cleared state, then removes the instance
directory — in that order; afterwards the output is absent and no
document for the instance remains in the store. -/
theorem destroy_clears_persists_removes (env : Collaborators) (s : InstanceStateV1)
    (store : List (String × RawDoc)) (h : env.destroyResult = .ok ()) :
    destroyOp env s store =
      { error := none, state := clearOutput s
        store := removeInstanceDir (persistState store (clearOutput s)) s.name }
    ∧ (destroyOp env s store).state.provision.output = none
    ∧ storeLookup (destroyOp env s store).store s.name = none := by
  have h1 : destroyOp env s store =
      { error := none, state := clearOutput s
        store := removeInstanceDir (persistState store (clearOutput s)) s.name } := by
    simp [destroyOp, h]
  refine ⟨h1, ?_, ?_⟩
  · rw [h1]
    simp [clearOutput]
  · rw [h1]
    exact storeLookup_removeInstanceDir _ _

/-- Witness for C5 at a concrete input. -/
theorem destroy_clears_persists_removes_witness :
    (destroyOp envAllOk box1Prov []).state.provision.output = none
    ∧ storeLookup (destroyOp envAllOk box1Prov []).store box1Prov.name = none :=
  (destroy_clears_persists_removes envAllOk box1Prov [] rfl).2

/-- C6: on a state whose provision.output is absent, configure, start and
pair all fail with the factory NotProvisionedError build check, leave the
state untouched and persist nothing. -/
theorem unprovisioned_ops_fail_fast (env : Collaborators) (s : InstanceStateV1)
    (store : List (String × RawDoc)) (h : s.provision.output = none) :
    configureOp env s store =
      { error := some (.notProvisioned "configurator"), state := s, store := store }
    ∧ startOp env s store =
      { error := some (.notProvisioned "runner"), state := s, store := store }
    ∧ pairOp env s store =
      { error := some (.notProvisioned "runner"), state := s, store := store } := by
  refine ⟨?_, ?_, ?_⟩ <;> simp [configureOp, startOp, pairOp, runnerOp, h]

/-- Witness for C6 at a concrete input. -/
theorem unprovisioned_ops_fail_fast_witness :
    configureOp envAllOk box1 [] =
      { error := some (.notProvisioned "configurator"), state := box1, store := [] }
    ∧ startOp envAllOk box1 [] =
      { error := some (.notProvisioned "runner"), state := box1, store := [] }
    ∧ pairOp envAllOk box1 [] =
      { error := some (.notProvisioned "runner"), state := box1, store := [] } :=
  unprovisioned_ops_fail_fast envAllOk box1 [] rfl

/-- C1 counterexample: with the auto-approve option set and a failing
pairing capability, the init sequence fails with the pairing error — so
pairing was invoked, not skipped as the claim states. With auto-approve
absent and a declining confirm prompt, the same environment succeeds,
because pairing really is skipped only in that case. -/
theorem autoapprove_does_not_skip_pairing :
    (initOp envPairFail (some true) box1 []).error = some (.runnerError "pairfail")
    ∧ (initOp envPairFail none box1 []).error = none := by
  exact ⟨rfl, rfl⟩

/-- C1 (amended): when provisioning and configuration succeed, the init
sequence runs provision, persists, runs configure, persists, and then
pairs exactly when auto-approve is set (pairing proceeds automatically
without prompting) or the interactive confirm prompt answers yes;
otherwise pairing is skipped. Each step persists before the next begins. -/
theorem init_sequence_spec (env : Collaborators) (a : Option Bool)
    (s : InstanceStateV1) (store : List (String × RawDoc)) (out : OutputV1)
    (hp : env.provisionResult = .ok out) (hc : env.configureResult = .ok ()) :
    initOp env a s store =
      if a = some true ∨ env.confirmPair = true then
        pairOp env (withOutput s out)
          (persistState (persistState store (withOutput s out)) (withOutput s out))
      else
        { error := none, state := withOutput s out
          store := persistState (persistState store (withOutput s out)) (withOutput s out) } := by
  have h1 : provisionOp env s store =
      { error := none, state := withOutput s out, store := persistState store (withOutput s out) } := by
    simp [provisionOp, hp]
  have h2 : configureOp env (withOutput s out) (persistState store (withOutput s out)) =
      { error := none, state := withOutput s out
        store := persistState (persistState store (withOutput s out)) (withOutput s out) } := by
    simp [configureOp, withOutput, hc]
  simp only [initOp, h1, h2]
  rcases a with _ | b
  · by_cases hcp : env.confirmPair <;> simp [hcp]
  · cases b
    · by_cases hcp : env.confirmPair <;> simp [hcp]
    · simp

/-- Witness for C1 at a concrete input: auto-approve set, everything
succeeding — the sequence reduces to pairing after two persists. -/
theorem init_sequence_spec_witness :
    initOp envAllOk (some true) box1 [] =
      pairOp envAllOk (withOutput box1 sampleOutput)
        (persistState (persistState [] (withOutput box1 sampleOutput)) (withOutput box1 sampleOutput)) := by
  have h := init_sequence_spec envAllOk (some true) box1 [] sampleOutput rfl rfl
  simpa using h

/-- Shared V0-path lemma: once the version is falsy and the host and ssh
checks pass, the migration is exactly the provider dispatch. -/
theorem ensureStateV1_v0_dispatch (d : RawDoc) (ssh : SshV0)
    (hv : strTruthy d.version = false) (hh : strTruthy d.host = true)
    (hs : d.ssh = some ssh) (hu : strTruthy ssh.user = true)
    (hk : strTruthy ssh.privateKeyPath = true) :
    ensureStateV1 d =
      migrateV0Provider d (d.host.getD "") (ssh.user.getD "") (ssh.privateKeyPath.getD "") := by
  simp [ensureStateV1, hv, hh, hs, hu, hk]

/-- More legacy sample data for the migration claims. -/
def multiProviderDoc : RawDoc :=
  { version := none, name := some "multi"
    provider := some { aws := some awsSample, azure := some azureSample, gcp := none, paperspace := none }
    host := some "1.2.3.4", ssh := some sshSample, status := none, provision := none }

/-- The V1 document the migration actually produces from `multiProviderDoc`:
the aws shape, silently ignoring the populated azure sub-object. -/
def multiProviderV1Doc : RawDoc :=
  rawV1 (some "multi") CLOUDYPAD_PROVIDER_AWS
    { host := "1.2.3.4", instanceId := some "i-123", vmName := none
      resourceGroupName := none, instanceName := none, machineId := none }
    { createArgs := createSample, apiKey := none
      ssh := { user := "ubuntu", privateKeyPath := "/home/u/key" } }

/-- A versionless document with no provider sub-object at all. -/
def zeroProviderDoc : RawDoc :=
  { version := none, name := some "zero", provider := none
    host := some "1.2.3.4", ssh := some sshSample, status := none, provision := none }

/-- C2 counterexample: a versionless document with BOTH aws and azure
populated does not fail with UnknownProviderError as the claim states; the
migration silently picks the aws sub-object. -/
theorem multi_provider_picks_first :
    (povAws multiProviderDoc.provider).isSome = true
    ∧ (povAzure multiProviderDoc.provider).isSome = true
    ∧ ensureStateV1 multiProviderDoc ≠ .error .unknownProvider
    ∧ ensureStateV1 multiProviderDoc = .ok multiProviderV1Doc := by
  have he : ensureStateV1 multiProviderDoc = .ok multiProviderV1Doc := rfl
  refine ⟨rfl, rfl, ?_, he⟩
  rw [he]
  simp

/-- The aws transform never raises the unknown-provider error: every one
of its outcomes is a success or a MigrationError of its own checks. -/
theorem migrateAws_not_unknown (name : Option String) (host user keyPath : String)
    (aws : AwsV0) :
    migrateAws name host user keyPath aws ≠ .error .unknownProvider := by
  unfold migrateAws
  repeat' split
  all_goals simp

/-- The azure transform never raises the unknown-provider error. -/
theorem migrateAzure_not_unknown (name : Option String) (host user keyPath : String)
    (az : AzureV0) :
    migrateAzure name host user keyPath az ≠ .error .unknownProvider := by
  unfold migrateAzure
  repeat' split
  all_goals simp

/-- The gcp transform never raises the unknown-provider error. -/
theorem migrateGcp_not_unknown (name : Option String) (host user keyPath : String)
    (gcp : GcpV0) :
    migrateGcp name host user keyPath gcp ≠ .error .unknownProvider := by
  unfold migrateGcp
  repeat' split
  all_goals simp

/-- The paperspace transform never raises the unknown-provider error. -/
theorem migratePaperspace_not_unknown (name : Option String) (host user keyPath : String)
    (ps : PaperspaceV0) :
    migratePaperspace name host user keyPath ps ≠ .error .unknownProvider := by
  unfold migratePaperspace
  repeat' split
  all_goals simp

/-- C2 (amended): for versionless documents passing the legacy host and
ssh checks: with zero populated provider sub-objects, migrate fails with
UnknownProviderError; with one or more populated, migrate never fails
with UnknownProviderError — it silently delegates to the first populated
sub-object in the fixed order aws, azure, gcp, paperspace, so the result
(that provider's migration, which succeeds or fails by that provider's
own field checks alone) ignores every other populated sub-object. -/
theorem migrate_zero_or_multi_provider (d : RawDoc) (ssh : SshV0)
    (hv : strTruthy d.version = false) (hh : strTruthy d.host = true)
    (hs : d.ssh = some ssh) (hu : strTruthy ssh.user = true)
    (hk : strTruthy ssh.privateKeyPath = true) :
    (povAws d.provider = none → povAzure d.provider = none → povGcp d.provider = none →
      povPaperspace d.provider = none → ensureStateV1 d = .error .unknownProvider)
    ∧ (∀ aws, povAws d.provider = some aws →
      ensureStateV1 d =
        migrateAws d.name (d.host.getD "") (ssh.user.getD "") (ssh.privateKeyPath.getD "") aws)
    ∧ (∀ az, povAws d.provider = none → povAzure d.provider = some az →
      ensureStateV1 d =
        migrateAzure d.name (d.host.getD "") (ssh.user.getD "") (ssh.privateKeyPath.getD "") az)
    ∧ (∀ gcp, povAws d.provider = none → povAzure d.provider = none →
      povGcp d.provider = some gcp →
      ensureStateV1 d =
        migrateGcp d.name (d.host.getD "") (ssh.user.getD "") (ssh.privateKeyPath.getD "") gcp)
    ∧ (∀ ps, povAws d.provider = none → povAzure d.provider = none →
      povGcp d.provider = none → povPaperspace d.provider = some ps →
      ensureStateV1 d =
        migratePaperspace d.name (d.host.getD "") (ssh.user.getD "") (ssh.privateKeyPath.getD "") ps)
    ∧ (((povAws d.provider).isSome || (povAzure d.provider).isSome
        || (povGcp d.provider).isSome || (povPaperspace d.provider).isSome) = true →
      ensureStateV1 d ≠ .error .unknownProvider) := by
  have key := ensureStateV1_v0_dispatch d ssh hv hh hs hu hk
  refine ⟨?_, ?_, ?_, ?_, ?_, ?_⟩
  · intro h1 h2 h3 h4
    rw [key]
    simp [migrateV0Provider, h1, h2, h3, h4]
  · intro aws ha
    rw [key]
    simp [migrateV0Provider, ha]
  · intro az h1 h2
    rw [key]
    simp [migrateV0Provider, h1, h2]
  · intro gcp h1 h2 h3
    rw [key]
    simp [migrateV0Provider, h1, h2, h3]
  · intro ps h1 h2 h3 h4
    rw [key]
    simp [migrateV0Provider, h1, h2, h3, h4]
  · intro hone
    rw [key]
    cases hA : povAws d.provider with
    | some aws =>
      simp only [migrateV0Provider, hA]
      exact migrateAws_not_unknown _ _ _ _ _
    | none =>
      cases hB : povAzure d.provider with
      | some az =>
        simp only [migrateV0Provider, hA, hB]
        exact migrateAzure_not_unknown _ _ _ _ _
      | none =>
        cases hC : povGcp d.provider with
        | some gcp =>
          simp only [migrateV0Provider, hA, hB, hC]
          exact migrateGcp_not_unknown _ _ _ _ _
        | none =>
          cases hD : povPaperspace d.provider with
          | some ps =>
            simp only [migrateV0Provider, hA, hB, hC, hD]
            exact migratePaperspace_not_unknown _ _ _ _ _
          | none =>
            simp [hA, hB, hC, hD] at hone

/-- Witness for C2 at concrete inputs: zero populated providers fail with
the unknown-provider error, and the doubly-populated sample document is
dispatched to its aws sub-object. -/
theorem migrate_zero_or_multi_provider_witness :
    ensureStateV1 zeroProviderDoc = .error .unknownProvider
    ∧ ensureStateV1 multiProviderDoc =
      migrateAws (some "multi") "1.2.3.4" "ubuntu" "/home/u/key" awsSample := by
  exact ⟨(migrate_zero_or_multi_provider zeroProviderDoc sshSample rfl rfl rfl rfl rfl).1
      rfl rfl rfl rfl,
    (migrate_zero_or_multi_provider multiProviderDoc sshSample rfl rfl rfl rfl rfl).2.1
      awsSample rfl⟩

/-- A legacy paperspace sub-object with machineId and creation args present
but no api key anywhere. -/
def psNoKey : PaperspaceV0 :=
  { machineId := some "m-1", apiKey := none
    provisionArgs := some { create := some createSample, apiKey := none } }

/-- A versionless paperspace document carrying `psNoKey`: every field the
claim enumerates as required (host, ssh.user, ssh.privateKeyPath,
provisionArgs.create, machineId) is present. -/
def psNoKeyDoc : RawDoc :=
  { version := none, name := some "ps1"
    provider := some { aws := none, azure := none, gcp := none, paperspace := some psNoKey }
    host := some "1.2.3.4", ssh := some sshSample, status := none, provision := none }

/-- C8 counterexample: a paperspace document with every field the claim
enumerates present still fails, because the migration additionally
requires a paperspace api key — the claim's list of required legacy
fields is incomplete for that provider. -/
theorem paperspace_without_apikey_fails :
    strTruthy psNoKeyDoc.host = true
    ∧ (psNoKey.provisionArgs.bind ArgsV0.create).isSome = true
    ∧ strTruthy psNoKey.machineId = true
    ∧ ensureStateV1 psNoKeyDoc = .error (.migrationMissingField "paperspace.apiKey") :=
  ⟨rfl, rfl, rfl, rfl⟩

/-- C8 (amended): for versionless documents passing the legacy host and
ssh checks and carrying exactly one populated provider with its required
fields present and non-empty — for paperspace additionally a truthy api
key on the provider object or inside provisionArgs — the migration
succeeds and produces a V1 document with version "1", the same name, that
provider, and output fields mapped 1:1 from the legacy fields; and a
missing required field (shown for absent provisionArgs) fails with a
MigrationError identifying it. -/
theorem migrate_v0_field_mapping (d : RawDoc) (ssh : SshV0)
    (hv : strTruthy d.version = false) (hh : strTruthy d.host = true)
    (hs : d.ssh = some ssh) (hu : strTruthy ssh.user = true)
    (hk : strTruthy ssh.privateKeyPath = true) :
    (∀ aws args create,
      d.provider = some { aws := some aws, azure := none, gcp := none, paperspace := none } →
      aws.provisionArgs = some args → args.create = some create →
      strTruthy aws.instanceId = true →
      ensureStateV1 d = .ok (rawV1 d.name CLOUDYPAD_PROVIDER_AWS
        { host := d.host.getD "", instanceId := aws.instanceId, vmName := none
          resourceGroupName := none, instanceName := none, machineId := none }
        { createArgs := create, apiKey := none
          ssh := { user := ssh.user.getD "", privateKeyPath := ssh.privateKeyPath.getD "" } }))
    ∧ (∀ az args create,
      d.provider = some { aws := none, azure := some az, gcp := none, paperspace := none } →
      az.provisionArgs = some args → args.create = some create →
      strTruthy az.vmName = true → strTruthy az.resourceGroupName = true →
      ensureStateV1 d = .ok (rawV1 d.name CLOUDYPAD_PROVIDER_AZURE
        { host := d.host.getD "", instanceId := none, vmName := az.vmName
          resourceGroupName := az.resourceGroupName, instanceName := none, machineId := none }
        { createArgs := create, apiKey := none
          ssh := { user := ssh.user.getD "", privateKeyPath := ssh.privateKeyPath.getD "" } }))
    ∧ (∀ gcp args create,
      d.provider = some { aws := none, azure := none, gcp := some gcp, paperspace := none } →
      gcp.provisionArgs = some args → args.create = some create →
      strTruthy gcp.instanceName = true →
      ensureStateV1 d = .ok (rawV1 d.name CLOUDYPAD_PROVIDER_GCP
        { host := d.host.getD "", instanceId := none, vmName := none
          resourceGroupName := none, instanceName := gcp.instanceName, machineId := none }
        { createArgs := create, apiKey := none
          ssh := { user := ssh.user.getD "", privateKeyPath := ssh.privateKeyPath.getD "" } }))
    ∧ (∀ ps args create,
      d.provider = some { aws := none, azure := none, gcp := none, paperspace := some ps } →
      ps.provisionArgs = some args → args.create = some create →
      strTruthy ps.machineId = true →
      (strTruthy ps.apiKey = true ∨ strTruthy args.apiKey = true) →
      ensureStateV1 d = .ok (rawV1 d.name CLOUDYPAD_PROVIDER_PAPERSPACE
        { host := d.host.getD "", instanceId := none, vmName := none
          resourceGroupName := none, instanceName := none, machineId := ps.machineId }
        { createArgs := create, apiKey := nullishOr ps.apiKey args.apiKey
          ssh := { user := ssh.user.getD "", privateKeyPath := ssh.privateKeyPath.getD "" } }))
    ∧ (∀ aws,
      d.provider = some { aws := some aws, azure := none, gcp := none, paperspace := none } →
      aws.provisionArgs = none →
      ensureStateV1 d = .error (.migrationMissingField "aws.provisionArgs")) := by
  have key := ensureStateV1_v0_dispatch d ssh hv hh hs hu hk
  refine ⟨?_, ?_, ?_, ?_, ?_⟩
  · intro aws args create hp hargs hcreate hid
    rw [key]
    simp [migrateV0Provider, povAws, hp, migrateAws, hargs, hcreate, hid]
  · intro az args create hp hargs hcreate hvm hrg
    rw [key]
    simp [migrateV0Provider, povAws, povAzure, hp, migrateAzure, hargs, hcreate, hvm, hrg]
  · intro gcp args create hp hargs hcreate hin
    rw [key]
    simp [migrateV0Provider, povAws, povAzure, povGcp, hp, migrateGcp, hargs, hcreate, hin]
  · intro ps args create hp hargs hcreate hm hor
    rw [key]
    rcases hor with ha | hb
    · simp [migrateV0Provider, povAws, povAzure, povGcp, povPaperspace, hp,
        migratePaperspace, hargs, hcreate, hm, ha]
    · simp [migrateV0Provider, povAws, povAzure, povGcp, povPaperspace, hp,
        migratePaperspace, hargs, hcreate, hm, hb]
  · intro aws hp hargs
    rw [key]
    simp [migrateV0Provider, povAws, hp, migrateAws, hargs]

/-- Witness for C8 at a concrete input: the sample legacy aws document
migrates to the expected V1 shape. -/
theorem migrate_v0_field_mapping_witness :
    ensureStateV1 awsV0Doc = .ok awsV1Doc := by
  exact (migrate_v0_field_mapping awsV0Doc sshSample rfl rfl rfl rfl rfl).1
    awsSample { create := some createSample, apiKey := none } createSample rfl rfl rfl rfl

/-- A legacy paperspace sub-object whose provider-level apiKey is present
but empty, with no provisionArgs apiKey. -/
def psEmptyKey : PaperspaceV0 :=
  { machineId := some "m-2", apiKey := some ""
    provisionArgs := some { create := some createSample, apiKey := none } }

/-- A versionless paperspace document carrying `psEmptyKey`. -/
def psEmptyKeyDoc : RawDoc :=
  { version := none, name := some "ps2"
    provider := some { aws := none, azure := none, gcp := none, paperspace := some psEmptyKey }
    host := some "1.2.3.4", ssh := some sshSample, status := none, provision := none }

/-- C10 counterexample: the provider-level apiKey is present (the empty
string) and provisionArgs.apiKey is absent, so by the claim the
provider-level key should be taken and no failure occur — but the
migration fails, because its presence check uses truthiness (empty string
counts as missing) while its resolution uses nullish coalescing. -/
theorem present_empty_apikey_still_fails :
    psEmptyKey.apiKey = some ""
    ∧ ensureStateV1 psEmptyKeyDoc = .error (.migrationMissingField "paperspace.apiKey") :=
  ⟨rfl, rfl⟩

/-- A legacy paperspace sub-object with a non-empty provider-level apiKey. -/
def psGoodKey : PaperspaceV0 :=
  { machineId := some "m-3", apiKey := some "k3"
    provisionArgs := some { create := some createSample, apiKey := none } }

/-- A versionless paperspace document carrying `psGoodKey`. -/
def psGoodKeyDoc : RawDoc :=
  { version := none, name := some "ps3"
    provider := some { aws := none, azure := none, gcp := none, paperspace := some psGoodKey }
    host := some "1.2.3.4", ssh := some sshSample, status := none, provision := none }

/-- C10 (amended): for a well-formed versionless paperspace document
(host, ssh, provisionArgs.create and machineId present), the migration
fails with a migration error exactly when both api keys are falsy (absent
or the empty string); otherwise it succeeds and resolves the V1 config
apiKey by nullish coalescing — the provider-level key whenever it is
non-null (even empty), falling back to provisionArgs.apiKey. -/
theorem paperspace_apikey_resolution (d : RawDoc) (ssh : SshV0) (ps : PaperspaceV0)
    (args : ArgsV0) (create : CreateArgs)
    (hv : strTruthy d.version = false) (hh : strTruthy d.host = true)
    (hs : d.ssh = some ssh) (hu : strTruthy ssh.user = true)
    (hk : strTruthy ssh.privateKeyPath = true)
    (hp : d.provider = some { aws := none, azure := none, gcp := none, paperspace := some ps })
    (hargs : ps.provisionArgs = some args) (hcreate : args.create = some create)
    (hm : strTruthy ps.machineId = true) :
    (strTruthy ps.apiKey = false → strTruthy args.apiKey = false →
      ensureStateV1 d = .error (.migrationMissingField "paperspace.apiKey"))
    ∧ ((strTruthy ps.apiKey = true ∨ strTruthy args.apiKey = true) →
      ensureStateV1 d = .ok (rawV1 d.name CLOUDYPAD_PROVIDER_PAPERSPACE
        { host := d.host.getD "", instanceId := none, vmName := none
          resourceGroupName := none, instanceName := none, machineId := ps.machineId }
        { createArgs := create, apiKey := nullishOr ps.apiKey args.apiKey
          ssh := { user := ssh.user.getD "", privateKeyPath := ssh.privateKeyPath.getD "" } })) := by
  have key := ensureStateV1_v0_dispatch d ssh hv hh hs hu hk
  constructor
  · intro ha hb
    rw [key]
    simp [migrateV0Provider, povAws, povAzure, povGcp, povPaperspace, hp,
      migratePaperspace, hargs, hcreate, hm, ha, hb]
  · intro hor
    rw [key]
    rcases hor with ha | hb
    · simp [migrateV0Provider, povAws, povAzure, povGcp, povPaperspace, hp,
        migratePaperspace, hargs, hcreate, hm, ha]
    · simp [migrateV0Provider, povAws, povAzure, povGcp, povPaperspace, hp,
        migratePaperspace, hargs, hcreate, hm, hb]

/-- Witness for C10 at a concrete input: a non-empty provider-level key
resolves into the V1 config. -/
theorem paperspace_apikey_resolution_witness :
    ensureStateV1 psGoodKeyDoc = .ok (rawV1 (some "ps3") CLOUDYPAD_PROVIDER_PAPERSPACE
      { host := "1.2.3.4", instanceId := none, vmName := none
        resourceGroupName := none, instanceName := none, machineId := some "m-3" }
      { createArgs := createSample, apiKey := some "k3"
        ssh := { user := "ubuntu", privateKeyPath := "/home/u/key" } }) := by
  exact (paperspace_apikey_resolution psGoodKeyDoc sshSample psGoodKey
    { create := some createSample, apiKey := none } createSample
    rfl rfl rfl rfl rfl rfl rfl rfl rfl).2 (Or.inl rfl)

end CloudyPad
